import Mathlib

/-!
Verification of the MetaMask SDK connector (MetaMask/references).

The repository contains two historical variants of the same connector class
`MetaMaskSDKConnector`:

* `src/unnamed/part_000` — the variant whose `connect()` fires the SDK
  handshake without awaiting it (`sdk.connect().catch(ignore)`), waits on
  `#waitForSDK()` (a race between the synchronous already-authorized check,
  the one-shot PROVIDER_UPDATE signal and a one-shot legacy AUTHORIZED
  signal), then resyncs listeners and requests accounts via
  `eth_requestAccounts`.  Embedded below in namespace `Part000`.

* `src/packages/connectors/src/metaMaskSDK.ts` — the variant whose
  `connect()` awaits `sdk.connect()` for the account list, resyncs
  listeners, and only then (when the extension is not active and the
  connection is not yet authorized) awaits a one-shot legacy 'authorized'
  signal.  Embedded below in namespace `MetaMaskTS`.

Shared pieces (the listener bookkeeping of `#updateProviderListeners`,
which is identical in both files, JS `parseInt(s, 16)`, the error
classification of the single outermost catch, and the account selection
`accounts?.[0] ?? '0x'`) are embedded once at top level.

Effectful collaborator calls (SDK initialization, the SDK connect trigger,
provider RPC requests, `switchChain`) are modelled by an environment record
giving each call's settled outcome; `connect()` becomes a deterministic
interpreter over that environment which also records a trace of the
lifecycle events it performs, so that ordering claims can be stated.
-/

deriving instance DecidableEq for Except

/-- The three provider events whose handlers the connector tracks
(`accountsChanged`, `chainChanged`, `disconnect`). -/
inductive PEvent
  | accountsChanged
  | chainChanged
  | disconnect
deriving DecidableEq, Repr

/-- Listener-bookkeeping state of the connector: the provider reference the
connector currently holds (`#provider`, possibly absent — the field is
optional in both sources), and the multiset of attachments
(provider identity, event) created by `provider.on` and removed by
`provider.removeListener`.  Provider identities are modelled as naturals. -/
structure ListenerState where
  provider : Option Nat
  attached : List (Nat × PEvent)
deriving DecidableEq, Repr

/-- Model of `emitter.removeListener(event, handler)`: removes one registration of the
handler if present (Node `EventEmitter` semantics), no-op otherwise. -/
def removeListener (l : List (Nat × PEvent)) (p : Nat) (e : PEvent) :
    List (Nat × PEvent) :=
  l.erase (p, e)

/-- Model of `emitter.on(event, handler)`: appends a registration. -/
def onListener (l : List (Nat × PEvent)) (p : Nat) (e : PEvent) :
    List (Nat × PEvent) :=
  l ++ [(p, e)]

/-- Model of `#updateProviderListeners()` (identical in both source files):
if a provider reference is held, remove the three tracked handlers from it;
then refresh the reference from `this.#sdk.getProvider()` (argument
`sdkProvider`, possibly absent); then attach the three handlers to the
refreshed reference via optional chaining (`this.#provider?.on(...)`). -/
def updateProviderListeners (st : ListenerState) (sdkProvider : Option Nat) :
    ListenerState :=
  let cleaned : List (Nat × PEvent) :=
    match st.provider with
    | some p =>
        removeListener
          (removeListener
            (removeListener st.attached p PEvent.accountsChanged)
            p PEvent.chainChanged)
          p PEvent.disconnect
    | none => st.attached
  let newAttached : List (Nat × PEvent) :=
    match sdkProvider with
    | some p =>
        onListener
          (onListener
            (onListener cleaned p PEvent.accountsChanged)
            p PEvent.chainChanged)
          p PEvent.disconnect
    | none => cleaned
  { provider := sdkProvider, attached := newAttached }

/-- A connector performing resyncs against whatever providers the SDK
reports over time: any sequence of connector operations, as far as the
tracked listeners are concerned (they are touched only by
`#updateProviderListeners`). -/
def runUpdates (st : ListenerState) (ps : List (Option Nat)) : ListenerState :=
  ps.foldl updateProviderListeners st

/-- The listener invariant: every attachment of a tracked handler is to the
provider reference currently considered active, and no handler is attached
twice.  (Bounded form, so it is decidable on concrete states.) -/
def goodState (st : ListenerState) : Prop :=
  ∀ pe ∈ st.attached, st.attached.count pe ≤ 1 ∧ st.provider = some pe.1

instance : DecidablePred goodState := fun st =>
  List.decidableBAll _ st.attached

/-- The canonical attachment list after a resync found provider `o`. -/
def canonicalAttached : Option Nat → List (Nat × PEvent)
  | some p => [(p, PEvent.accountsChanged), (p, PEvent.chainChanged),
               (p, PEvent.disconnect)]
  | none => []
/-- A JavaScript error value as the connector inspects it: an identity tag
(so "re-thrown unchanged" is expressible) and an optional numeric `code`
field (as read by `(error as ProviderRpcError).code`). -/
structure Err where
  tag : Nat
  code : Option Int
deriving DecidableEq, Repr

/-- What `connect()` can throw after its single outermost catch: a
`UserRejectedRequestError` wrapping the cause, a
`ResourceUnavailableRpcError` wrapping the cause, or the original error
value re-thrown unchanged. -/
inductive ThrownError
  | userRejectedRequestError (cause : Err)
  | resourceUnavailableRpcError (cause : Err)
  | raw (e : Err)
deriving DecidableEq, Repr

/-- The single outermost catch of `connect()` (identical in both source
files): `if (this.isUserRejectedRequestError(error)) throw new
UserRejectedRequestError(error); else if (error.code === -32002) throw new
ResourceUnavailableRpcError(error); throw error`.
`isUserRejected` is the base connector's predicate. -/
def classify (isUserRejected : Err → Bool) (e : Err) : ThrownError :=
  if isUserRejected e then ThrownError.userRejectedRequestError e
  else if e.code = some (-32002) then ThrownError.resourceUnavailableRpcError e
  else ThrownError.raw e

/-- Numeric value of a hexadecimal digit character, if it is one. -/
def hexDigitVal : Char → Option Nat := fun c =>
  if '0' ≤ c ∧ c ≤ '9' then some (c.toNat - '0'.toNat)
  else if 'a' ≤ c ∧ c ≤ 'f' then some (c.toNat - 'a'.toNat + 10)
  else if 'A' ≤ c ∧ c ≤ 'F' then some (c.toNat - 'A'.toNat + 10)
  else none

/-- Longest hexadecimal-digit run: accumulates digits until the first
non-digit; `none` when no digit was read at all (JS `NaN`). -/
def parseHexRun : List Char → Option Nat → Option Nat
  | [], acc => acc
  | c :: cs, acc =>
      match hexDigitVal c with
      | some d => parseHexRun cs (some (acc.getD 0 * 16 + d))
      | none => acc

/-- Leading-whitespace trim performed by JS `parseInt` (the characters
relevant here; parsing stops at any later non-digit anyway). -/
def jsWsTrim (cs : List Char) : List Char :=
  cs.dropWhile fun c => c = ' ' ∨ c = '\t' ∨ c = '\n' ∨ c = '\r'

/-- JS `parseInt(s, 16)`: trim whitespace, optional sign, optional `0x` or
`0X`, then the longest run of hex digits; `none` models `NaN`. -/
def parseInt16 (s : String) : Option Int :=
  let cs := jsWsTrim s.toList
  let signed : Int × List Char :=
    match cs with
    | '-' :: rest => (-1, rest)
    | '+' :: rest => (1, rest)
    | _ => (1, cs)
  let digits : List Char :=
    match signed.2 with
    | '0' :: 'x' :: rest => rest
    | '0' :: 'X' :: rest => rest
    | _ => signed.2
  match parseHexRun digits none with
  | some n => some (signed.1 * n)
  | none => none

/-- JS `parseInt(v, 16)` where `v` may be `undefined`/`null`: JS coerces the
missing value to the strings "undefined"/"null", neither of which starts
with a hex digit, so the result is `NaN` (`none`). -/
def parseInt16OrNaN : Option String → Option Int
  | some s => parseInt16 s
  | none => none

/-- Account selection `accounts?.[0] ?? '0x'` (both source files): first element of the
account list, the literal "0x" when the list is absent or empty. -/
def selectedAccountOf (accounts : Option (List String)) : String :=
  (accounts.bind List.head?).getD "0x"

/-- JS truthiness of the optionally-present string field
`this.#provider?.chainId`: falsy when the provider or the field is absent,
or the field is the empty string. -/
def jsTruthyStr : Option String → Bool
  | some s => decide (s ≠ "")
  | none => false

/-- The chain-id string `connect()` has in hand before parsing (identical
in both source files): `let providerChainId = this.#provider?.chainId;
if (!providerChainId) providerChainId = await this.#provider?.request({
method: 'eth_chainId' })`.  `provider` is the (possibly absent) refreshed
provider reference, `field` its `chainId` field, `rpc` the settled outcome
of the `eth_chainId` request; with the provider absent both optional
chainings yield `undefined` without issuing the request. -/
def obtainProviderChainId (provider : Option Nat) (field : Option String)
    (rpc : Except Err (Option String)) : Except Err (Option String) :=
  let field0 : Option String := if provider.isSome then field else none
  if jsTruthyStr field0 then Except.ok field0
  else if provider.isSome then rpc else Except.ok none

/-- Lifecycle events recorded by the `connect()` interpreters. -/
inductive CEvent
  | sdkInit
  | sdkConnectTriggered
  | authWaitDone
  | resyncListeners
  | accountsDiscovered
  | chainDiscovered
  | chainSwitched
  | persisted (key : String) (value : Bool)
  | returned
deriving DecidableEq, Repr

/-- The `chain` record of a connect result: `id` is a JS number that may be
`NaN` (modelled `none`), `unsupported` a boolean. -/
structure ChainDesc where
  id : Option Int
  unsupported : Bool
deriving DecidableEq, Repr

/-- The record a successful `connect()` resolves with. -/
structure ConnectResult where
  isConnected : Bool
  account : String
  chain : ChainDesc
  provider : Option Nat
deriving DecidableEq, Repr

/-- The chain-switch block of `connect()` (identical in both source
files): `if (chainId !== undefined && chain.id !== chainId) { const
newChain = await this.switchChain(chainId); chain.id = newChain.id;
chain.unsupported = this.isChainUnsupported(newChain.id) }`.  JS
`chain.id !== chainId` is true in particular when `chain.id` is `NaN`.
Returns the trace of the optional switch and the final chain record. -/
def chainSwitch (switchChainOutcome : Int → Except Err Int)
    (isChainUnsupported : Int → Bool) (chain0 : ChainDesc)
    (chainId? : Option Int) : List CEvent × Except Err ChainDesc :=
  match chainId? with
  | none => ([], Except.ok chain0)
  | some c =>
      if chain0.id = some c then ([], Except.ok chain0)
      else
        match switchChainOutcome c with
        | Except.error e => ([], Except.error e)
        | Except.ok nid =>
            ([CEvent.chainSwitched],
             Except.ok { id := some nid,
                         unsupported := isChainUnsupported nid })
namespace Part000

/-- Signals that can reach the `#waitForSDK` promise of
`src/unnamed/part_000`: the SDK's one-shot PROVIDER_UPDATE emission and
the lower-level connection object's one-shot AUTHORIZED emission. -/
inductive WSignal
  | providerUpdate
  | authorized
deriving DecidableEq, Repr

/-- State of the `#waitForSDK` promise and its one-shot subscriptions: the
promise's resolution cell and whether each one-shot listener is still
armed. -/
structure WaitState where
  cell : Option Bool
  providerUpdateArmed : Bool
  authorizedArmed : Bool
deriving DecidableEq, Repr

/-- Effect of `resolve(v)` on a JS promise: the first resolution wins, a later
resolution is a no-op. -/
def resolveCell (c : Option Bool) (v : Bool) : Option Bool :=
  match c with
  | none => some v
  | some w => some w

/-- The synchronous body of the `#waitForSDK` promise executor: subscribe
one-shot to PROVIDER_UPDATE (resolving `true`); then, if
`this.#sdk._getConnection()?.isAuthorized()`, resolve `true` immediately;
otherwise subscribe one-shot to the legacy AUTHORIZED signal (whose
resolution also resolves the outer promise with `true`). -/
def waitForSDKSetup (isAuthorized : Bool) : WaitState :=
  let s : WaitState :=
    { cell := none, providerUpdateArmed := true, authorizedArmed := false }
  if isAuthorized then { s with cell := resolveCell s.cell true }
  else { s with authorizedArmed := true }

/-- Delivery of one signal: a still-armed one-shot listener fires, resolves
the promise with `true`, and disarms; a disarmed listener does nothing. -/
def fireSignal (s : WaitState) (sig : WSignal) : WaitState :=
  match sig with
  | WSignal.providerUpdate =>
      if s.providerUpdateArmed then
        { s with cell := resolveCell s.cell true, providerUpdateArmed := false }
      else s
  | WSignal.authorized =>
      if s.authorizedArmed then
        { s with cell := resolveCell s.cell true, authorizedArmed := false }
      else s

/-- Delivery of a whole schedule of signals, in order. -/
def runSignals (s : WaitState) (sigs : List WSignal) : WaitState :=
  sigs.foldl fireSignal s
end Part000

namespace Part000

/-- Settled outcomes of the collaborator calls one `connect()` run of
`src/unnamed/part_000` can make, plus the connector configuration it reads.
A promise that never settles is out of scope (the spec excludes
timeouts/cancellation), so each awaited call has an outcome. -/
structure Env where
  /-- `this.#sdk.isInitialized()` -/
  sdkReady : Bool
  /-- outcome of `await this.#sdk.init()` -/
  sdkInitOutcome : Except Err Unit
  /-- outcome of the fire-and-forget `this.#sdk.connect()` trigger; its
  rejection is consumed by `.catch(ignored)` -/
  sdkConnectOutcome : Except Err Unit
  /-- `this.#sdk.getProvider()` at resync time (possibly absent) -/
  provider : Option Nat
  /-- outcome of `this.#provider.request(eth_requestAccounts)`; `ok none`
  models a resolution with `undefined` -/
  requestAccountsOutcome : Except Err (Option (List String))
  /-- the provider's readable `chainId` field -/
  chainIdField : Option String
  /-- outcome of `this.#provider.request(eth_chainId)` -/
  ethChainIdOutcome : Except Err (Option String)
  /-- `this.switchChain(id)` from the base connector, yielding the id of
  the chain actually switched to -/
  switchChainOutcome : Int → Except Err Int
  /-- `this.isChainUnsupported(id)` from the base connector -/
  isChainUnsupported : Int → Bool
  /-- `this.isUserRejectedRequestError(error)` from the base connector -/
  isUserRejected : Err → Bool
  /-- `this.options?.shimDisconnect` -/
  shimDisconnect : Bool
  /-- whether `this.storage` is present (it is optionally chained) -/
  storagePresent : Bool
  /-- `this.shimDisconnectKey` -/
  shimKey : String

/-- The account list `connect()` obtains: `await this.#provider?.request({
method: 'eth_requestAccounts' })` — `undefined` without a request when the
provider reference is absent. -/
def accountList (env : Env) : Except Err (Option (List String)) :=
  if env.provider.isSome then env.requestAccountsOutcome else Except.ok none

/-- The body of the outer `try` of `connect({ chainId })` in
`src/unnamed/part_000`, as a deterministic interpreter over `Env`
returning the trace of lifecycle events performed and the raw (not yet
classified) outcome.  Steps, in source order: ensure the SDK is
initialized; fire the SDK connect trigger without awaiting it (its outcome
is consumed and ignored); await `#waitForSDK()`; resync listeners
(refreshing `#provider` from the SDK); request accounts; obtain and parse
the chain id; optionally switch chains; optionally persist the
shim-disconnect flag; return the connect response. -/
def connectBody (env : Env) (chainId? : Option Int) :
    List CEvent × Except Err ConnectResult :=
  let initTrace : List CEvent :=
    if env.sdkReady then [] else [CEvent.sdkInit]
  let initOutcome : Except Err Unit :=
    if env.sdkReady then Except.ok () else env.sdkInitOutcome
  match initOutcome with
  | Except.error e => (initTrace, Except.error e)
  | Except.ok _ =>
    let tr2 := initTrace ++ [CEvent.sdkConnectTriggered]
    let tr3 := tr2 ++ [CEvent.authWaitDone]
    let tr4 := tr3 ++ [CEvent.resyncListeners]
    match accountList env with
    | Except.error e => (tr4, Except.error e)
    | Except.ok accounts =>
      let tr5 := tr4 ++ [CEvent.accountsDiscovered]
      let selectedAccount := selectedAccountOf accounts
      match obtainProviderChainId env.provider env.chainIdField
          env.ethChainIdOutcome with
      | Except.error e => (tr5, Except.error e)
      | Except.ok providerChainId =>
        let tr6 := tr5 ++ [CEvent.chainDiscovered]
        let chain0 : ChainDesc :=
          { id := parseInt16OrNaN providerChainId, unsupported := false }
        match chainSwitch env.switchChainOutcome env.isChainUnsupported
            chain0 chainId? with
        | (trs, Except.error e) => (tr6 ++ trs, Except.error e)
        | (trs, Except.ok chain) =>
          let tr7 := tr6 ++ trs
          let tr8 :=
            if env.shimDisconnect && env.storagePresent then
              tr7 ++ [CEvent.persisted env.shimKey true]
            else tr7
          (tr8 ++ [CEvent.returned],
           Except.ok { isConnected := true, account := selectedAccount,
                       chain := chain, provider := env.provider })

/-- Operation `connect({ chainId })` of `src/unnamed/part_000`: the try body wrapped
by the single outermost catch performing the error classification. -/
def connect (env : Env) (chainId? : Option Int) :
    List CEvent × Except ThrownError ConnectResult :=
  match connectBody env chainId? with
  | (tr, Except.ok r) => (tr, Except.ok r)
  | (tr, Except.error e) => (tr, Except.error (classify env.isUserRejected e))

end Part000

namespace MetaMaskTS

/-- Settled outcomes of the collaborator calls one `connect()` run of
`src/packages/connectors/src/metaMaskSDK.ts` can make, plus the connector
configuration it reads. -/
structure Env where
  /-- `this.#sdk.isInitialized()` -/
  sdkReady : Bool
  /-- outcome of `await this.#sdk.init()` -/
  sdkInitOutcome : Except Err Unit
  /-- outcome of `await this.#sdk.connect()` — awaited in this variant,
  resolving to the account list (`ok none` models `undefined`) -/
  sdkConnectOutcome : Except Err (Option (List String))
  /-- `this.#sdk.getProvider()` at resync time (possibly absent) -/
  provider : Option Nat
  /-- `this.#sdk.isExtensionActive()` -/
  extensionActive : Bool
  /-- `this.#sdk._getConnection()?.isAuthorized()` -/
  isAuthorized : Bool
  /-- the provider's readable `chainId` field -/
  chainIdField : Option String
  /-- outcome of `this.#provider.request(eth_chainId)` -/
  ethChainIdOutcome : Except Err (Option String)
  /-- `this.switchChain(id)` from the base connector -/
  switchChainOutcome : Int → Except Err Int
  /-- `this.isChainUnsupported(id)` from the base connector -/
  isChainUnsupported : Int → Bool
  /-- `this.isUserRejectedRequestError(error)` from the base connector -/
  isUserRejected : Err → Bool
  /-- `this.options?.shimDisconnect` -/
  shimDisconnect : Bool
  /-- whether `this.storage` is present -/
  storagePresent : Bool
  /-- `this.shimDisconnectKey` -/
  shimKey : String

/-- The body of the outer `try` of `connect({ chainId })` in
`src/packages/connectors/src/metaMaskSDK.ts`.  Steps, in source order:
ensure the SDK is initialized; `const accounts = await this.#sdk.connect()`
(the rejection of this await propagates); resync listeners; when the
extension is not active and the connection is not yet authorized, await the
one-shot legacy 'authorized' signal (the model assumes that awaited promise
settles; with the connection object absent the source promise would never
resolve, which is outside the spec's scope); select the account; obtain and
parse the chain id; optionally switch chains; optionally persist the
shim-disconnect flag; return the connect response. -/
def connectBody (env : Env) (chainId? : Option Int) :
    List CEvent × Except Err ConnectResult :=
  let initTrace : List CEvent :=
    if env.sdkReady then [] else [CEvent.sdkInit]
  let initOutcome : Except Err Unit :=
    if env.sdkReady then Except.ok () else env.sdkInitOutcome
  match initOutcome with
  | Except.error e => (initTrace, Except.error e)
  | Except.ok _ =>
    match env.sdkConnectOutcome with
    | Except.error e =>
        (initTrace ++ [CEvent.sdkConnectTriggered], Except.error e)
    | Except.ok accounts =>
      let tr2 := initTrace ++
        [CEvent.sdkConnectTriggered, CEvent.accountsDiscovered]
      let tr3 := tr2 ++ [CEvent.resyncListeners]
      let tr4 :=
        if !env.extensionActive && !env.isAuthorized then
          tr3 ++ [CEvent.authWaitDone]
        else tr3
      let selectedAccount := selectedAccountOf accounts
      match obtainProviderChainId env.provider env.chainIdField
          env.ethChainIdOutcome with
      | Except.error e => (tr4, Except.error e)
      | Except.ok providerChainId =>
        let tr5 := tr4 ++ [CEvent.chainDiscovered]
        let chain0 : ChainDesc :=
          { id := parseInt16OrNaN providerChainId, unsupported := false }
        match chainSwitch env.switchChainOutcome env.isChainUnsupported
            chain0 chainId? with
        | (trs, Except.error e) => (tr5 ++ trs, Except.error e)
        | (trs, Except.ok chain) =>
          let tr6 := tr5 ++ trs
          let tr7 :=
            if env.shimDisconnect && env.storagePresent then
              tr6 ++ [CEvent.persisted env.shimKey true]
            else tr6
          (tr7 ++ [CEvent.returned],
           Except.ok { isConnected := true, account := selectedAccount,
                       chain := chain, provider := env.provider })

/-- Operation `connect({ chainId })` of `metaMaskSDK.ts`: the try body wrapped by the
single outermost catch performing the error classification. -/
def connect (env : Env) (chainId? : Option Int) :
    List CEvent × Except ThrownError ConnectResult :=
  match connectBody env chainId? with
  | (tr, Except.ok r) => (tr, Except.ok r)
  | (tr, Except.error e) => (tr, Except.error (classify env.isUserRejected e))

end MetaMaskTS

/-- Events of one constructor run. -/
inductive CtorEvent
  | threwInvalidParams
  | sdkConstructed
deriving DecidableEq, Repr

/-- What the constructor leaves behind, as far as the claims observe it:
the SDK instance retained in `this.#sdk` (instances are modelled as
naturals), whether it was freshly constructed by `new MetaMaskSDK(...)`,
and the `name`/`shimDisconnect` fields of the options record passed to the
base `InjectedConnector` (`getProvider` closes over the SDK's provider and
is not further modelled). -/
structure CtorState where
  sdk : Nat
  sdkWasConstructed : Bool
  name : String
  shimDisconnect : Bool
deriving DecidableEq, Repr

namespace Part000

/-- The constructor of `MetaMaskSDKConnector` in `src/unnamed/part_000`:
`if (!options_?.sdk && !options_?.sdkOptions) throw new
Error('MetaMaskConnector invalid sdk parameters')`; then `sdk` is the
provided instance, or `new MetaMaskSDK(options_.sdkOptions)` when none was
provided; then `super({chains, options})` with
`options = { name: 'MetaMask', shimDisconnect: true, getProvider }`.
`newSDK` models `new MetaMaskSDK` (SDK construction options are opaque,
also modelled as naturals); the `debug` flag does not affect any claimed
behavior and is not tracked. -/
def constructor (newSDK : Option Nat → Nat) (sdk? : Option Nat)
    (sdkOptions? : Option Nat) : List CtorEvent × Except String CtorState :=
  if sdk?.isNone && sdkOptions?.isNone then
    ([CtorEvent.threwInvalidParams],
     Except.error "MetaMaskConnector invalid sdk parameters")
  else
    match sdk? with
    | none =>
        ([CtorEvent.sdkConstructed],
         Except.ok { sdk := newSDK sdkOptions?, sdkWasConstructed := true,
                     name := "MetaMask", shimDisconnect := true })
    | some s =>
        ([], Except.ok { sdk := s, sdkWasConstructed := false,
                         name := "MetaMask", shimDisconnect := true })

end Part000

namespace MetaMaskTS

/-- The constructor of `MetaMaskSDKConnector` in `metaMaskSDK.ts`: the same
invalid-parameter check, then `sdk` is the provided instance, or
`new MetaMaskSDK(options_.sdkOptions)` after defaulting absent options to
`{ dappMetadata: { name: 'wagmi' } }` and tagging `_source = 'wagmi'`
(analytics-only mutations of the opaque options value, summarized by
`newSDK` receiving the — possibly defaulted — options); then
`super({chains, options})` with
`options = { name: 'MetaMask', shimDisconnect: true, getProvider }`. -/
def constructor (newSDK : Option Nat → Nat) (sdk? : Option Nat)
    (sdkOptions? : Option Nat) : List CtorEvent × Except String CtorState :=
  if sdk?.isNone && sdkOptions?.isNone then
    ([CtorEvent.threwInvalidParams],
     Except.error "MetaMaskConnector invalid sdk parameters")
  else
    match sdk? with
    | some s =>
        ([], Except.ok { sdk := s, sdkWasConstructed := false,
                         name := "MetaMask", shimDisconnect := true })
    | none =>
        ([CtorEvent.sdkConstructed],
         Except.ok { sdk := newSDK sdkOptions?, sdkWasConstructed := true,
                     name := "MetaMask", shimDisconnect := true })

end MetaMaskTS
/-- A benign environment for the part_000 variant: SDK ready, provider
present, one account, readable chain id `0x1`, nothing fails. -/
def benignEnvA : Part000.Env :=
  { sdkReady := true
    sdkInitOutcome := Except.ok ()
    sdkConnectOutcome := Except.ok ()
    provider := some 0
    requestAccountsOutcome := Except.ok (some ["0xabc"])
    chainIdField := some "0x1"
    ethChainIdOutcome := Except.ok (some "0x1")
    switchChainOutcome := fun c => Except.ok c
    isChainUnsupported := fun _ => false
    isUserRejected := fun _ => false
    shimDisconnect := true
    storagePresent := true
    shimKey := "metaMaskSDK.shimDisconnect" }

/-- A benign environment for the metaMaskSDK.ts variant in which the
legacy authorized wait actually runs (extension inactive, not yet
authorized). -/
def benignEnvB : MetaMaskTS.Env :=
  { sdkReady := true
    sdkInitOutcome := Except.ok ()
    sdkConnectOutcome := Except.ok (some ["0xabc"])
    provider := some 0
    extensionActive := false
    isAuthorized := false
    chainIdField := some "0x1"
    ethChainIdOutcome := Except.ok (some "0x1")
    switchChainOutcome := fun c => Except.ok c
    isChainUnsupported := fun _ => false
    isUserRejected := fun _ => false
    shimDisconnect := true
    storagePresent := true
    shimKey := "metaMaskSDK.shimDisconnect" }
/-- Environment for the chain-switch scenario: discovered chain `0x1`,
`switchChain` honors the request, chain 137 is outside the supported set. -/
def switchEnvA : Part000.Env :=
  { benignEnvA with isChainUnsupported := fun i => decide (i = 137) }
lemma goodState_nil (p : Option Nat) : goodState ⟨p, []⟩ := by
  intro pe hpe
  simp at hpe

lemma goodState_canonical (o : Option Nat) :
    goodState ⟨o, canonicalAttached o⟩ := by
  cases o with
  | none => exact goodState_nil none
  | some p =>
      intro pe hpe
      simp only [canonicalAttached, List.mem_cons, List.not_mem_nil,
        or_false] at hpe
      rcases hpe with h | h | h <;> subst h <;>
        exact ⟨by simp [canonicalAttached, List.count_cons], rfl⟩

/-- From a state satisfying the invariant, the cleanup phase of
`#updateProviderListeners` removes every tracked attachment. -/
lemma cleanup_eq_nil (st : ListenerState) (hgood : goodState st) (p : Nat)
    (hp : st.provider = some p) :
    removeListener
      (removeListener
        (removeListener st.attached p PEvent.accountsChanged)
        p PEvent.chainChanged)
      p PEvent.disconnect = [] := by
  apply List.eq_nil_iff_forall_not_mem.mpr
  intro x hx
  have hx1 : x ∈ st.attached :=
    List.mem_of_mem_erase (List.mem_of_mem_erase (List.mem_of_mem_erase hx))
  obtain ⟨hcount, hprov⟩ := hgood x hx1
  have hxp : x.1 = p := by
    have := hp ▸ hprov
    exact (Option.some_inj.mp this.symm)
  have hcount1 : st.attached.count x = 1 :=
    Nat.le_antisymm hcount (List.count_pos_iff.mpr hx1)
  -- after erasing the attachment matching x itself, its count is zero
  have hzero :
      (removeListener
        (removeListener
          (removeListener st.attached p PEvent.accountsChanged)
          p PEvent.chainChanged)
        p PEvent.disconnect).count x = 0 := by
    obtain ⟨q, e⟩ := x
    simp only at hxp
    subst hxp
    simp only [removeListener, List.count_erase, hcount1]
    cases e <;> simp
  have := List.count_pos_iff.mpr hx
  omega

/-- From a state satisfying the invariant, a resync leaves exactly the
canonical state for the refreshed provider. -/
lemma updateProviderListeners_eq_canonical (st : ListenerState)
    (hgood : goodState st) (o : Option Nat) :
    updateProviderListeners st o = ⟨o, canonicalAttached o⟩ := by
  have hclean :
      (match st.provider with
        | some p =>
            removeListener
              (removeListener
                (removeListener st.attached p PEvent.accountsChanged)
                p PEvent.chainChanged)
              p PEvent.disconnect
        | none => st.attached) = [] := by
    cases hp : st.provider with
    | none =>
        simp only
        apply List.eq_nil_iff_forall_not_mem.mpr
        intro x hx
        have := (hgood x hx).2
        rw [hp] at this
        exact Option.noConfusion this
    | some p => exact cleanup_eq_nil st hgood p hp
  unfold updateProviderListeners
  rw [hclean]
  cases o <;> simp [onListener, canonicalAttached]

/-- The invariant is preserved by a resync, whatever provider the SDK
reports. -/
lemma goodState_update (st : ListenerState) (hgood : goodState st)
    (o : Option Nat) : goodState (updateProviderListeners st o) := by
  rw [updateProviderListeners_eq_canonical st hgood o]
  exact goodState_canonical o

/-- The invariant is preserved along any sequence of resyncs. -/
lemma goodState_runUpdates (ps : List (Option Nat)) :
    ∀ st : ListenerState, goodState st → goodState (runUpdates st ps) := by
  induction ps with
  | nil => intro st h; exact h
  | cons o rest ih =>
      intro st h
      exact ih _ (goodState_update st h o)

/-- C1: at every point during and after any sequence of connector
operations, at most one set of the three tracked handlers is attached, and
it is attached to the provider the connector currently considers active
(the invariant holds initially, the tracked listeners are touched only by
the resync routine, and it preserves the invariant); moreover the resync
routine is idempotent: a second consecutive call changes nothing, and after
it each of the three handlers is attached exactly once to the current
provider. -/
theorem c1_listener_invariant_and_resync_idempotent :
    (∀ p0 : Option Nat, goodState ⟨p0, []⟩) ∧
    (∀ (st : ListenerState) (ps : List (Option Nat)), goodState st →
      goodState (runUpdates st ps)) ∧
    (∀ st : ListenerState, goodState st →
      ∀ (p q : Nat) (e : PEvent), (p, e) ∈ st.attached →
        (q, e) ∈ st.attached → p = q ∧ st.provider = some p) ∧
    (∀ (st : ListenerState) (o : Option Nat), goodState st →
      updateProviderListeners (updateProviderListeners st o) o =
        updateProviderListeners st o ∧
      (updateProviderListeners (updateProviderListeners st o) o).provider =
        o ∧
      (∀ p : Nat, o = some p → ∀ e : PEvent,
        (updateProviderListeners
          (updateProviderListeners st o) o).attached.count (p, e) = 1)) := by
  refine ⟨fun p0 => goodState_nil p0,
    fun st ps h => goodState_runUpdates ps st h, ?_, ?_⟩
  · intro st h p q e hp hq
    have h1 := (h _ hp).2
    have h2 := (h _ hq).2
    rw [h1] at h2
    exact ⟨Option.some_inj.mp h2, h1⟩
  · intro st o h
    have h1 := updateProviderListeners_eq_canonical st h o
    have h2 := updateProviderListeners_eq_canonical ⟨o, canonicalAttached o⟩
      (goodState_canonical o) o
    rw [h1, h2]
    refine ⟨rfl, rfl, ?_⟩
    intro p hp e
    subst hp
    cases e <;> simp [canonicalAttached, List.count_cons]

/-- Witness for C1 at concrete states. -/
theorem c1_listener_invariant_and_resync_idempotent_witness :
    goodState ⟨some 0, ([] : List (Nat × PEvent))⟩ ∧
    goodState (runUpdates ⟨some 1, [(1, PEvent.accountsChanged)]⟩
      [some 2, none, some 3]) ∧
    (updateProviderListeners
      (updateProviderListeners ⟨some 1, [(1, PEvent.accountsChanged)]⟩
        (some 3)) (some 3)).attached.count (3, PEvent.chainChanged) = 1 :=
  ⟨c1_listener_invariant_and_resync_idempotent.1 (some 0),
   c1_listener_invariant_and_resync_idempotent.2.1
     ⟨some 1, [(1, PEvent.accountsChanged)]⟩ [some 2, none, some 3]
     (by decide),
   (c1_listener_invariant_and_resync_idempotent.2.2.2
     ⟨some 1, [(1, PEvent.accountsChanged)]⟩ (some 3) (by decide)).2.2
     3 rfl PEvent.chainChanged⟩
namespace Part000
lemma resolveCell_of_some (v w : Bool) :
    resolveCell (some w) v = some w := rfl

lemma fireSignal_cell_stable (s : WaitState) (sig : WSignal) (w : Bool)
    (h : s.cell = some w) : (fireSignal s sig).cell = some w := by
  cases sig <;> simp only [fireSignal] <;> split <;> simp [resolveCell, h]

lemma runSignals_cell_stable (sigs : List WSignal) :
    ∀ s : WaitState, ∀ w : Bool, s.cell = some w →
      (runSignals s sigs).cell = some w := by
  induction sigs with
  | nil => intro s w h; exact h
  | cons sig rest ih =>
      intro s w h
      exact ih _ w (fireSignal_cell_stable s sig w h)

/-- C3: in `#waitForSDK`, the synchronous already-authorized check runs in
the same turn as (in parallel with) the one-shot PROVIDER_UPDATE
subscription, and the legacy one-shot AUTHORIZED subscription is installed
exactly when not already authorized; the promise resolves with whichever
path settles first — immediately when already authorized, and otherwise at
the very first delivered signal; and a path that loses the race can never
cause a second resolution with a different outcome: once the cell holds a
value, every later signal leaves that value unchanged (and every path
resolves with the same value `true`). -/
theorem c3_wait_race_first_settles_no_dangling :
    (∀ auth : Bool, (waitForSDKSetup auth).providerUpdateArmed = true ∧
      (waitForSDKSetup auth).authorizedArmed = !auth ∧
      (waitForSDKSetup auth).cell = if auth then some true else none) ∧
    (∀ sigs : List WSignal,
      (runSignals (waitForSDKSetup true) sigs).cell = some true) ∧
    (∀ sig : WSignal,
      (fireSignal (waitForSDKSetup false) sig).cell = some true) ∧
    (∀ sigs : List WSignal, sigs ≠ [] →
      (runSignals (waitForSDKSetup false) sigs).cell = some true) ∧
    (∀ (s : WaitState) (w : Bool) (sigs : List WSignal), s.cell = some w →
      (runSignals s sigs).cell = some w) := by
  refine ⟨?_, ?_, ?_, ?_, fun s w sigs h => runSignals_cell_stable sigs s w h⟩
  · intro auth; cases auth <;> exact ⟨rfl, rfl, rfl⟩
  · intro sigs
    exact runSignals_cell_stable sigs _ true rfl
  · intro sig; cases sig <;> rfl
  · intro sigs hne
    match sigs with
    | [] => exact absurd rfl hne
    | sig :: rest =>
        have h1 : (fireSignal (waitForSDKSetup false) sig).cell = some true := by
          cases sig <;> rfl
        exact runSignals_cell_stable rest _ true h1

/-- Witness for C3 at a concrete schedule. -/
theorem c3_wait_race_first_settles_no_dangling_witness :
    (runSignals (waitForSDKSetup false)
      [WSignal.authorized, WSignal.providerUpdate]).cell = some true ∧
    (runSignals ⟨some true, false, true⟩ [WSignal.providerUpdate]).cell =
      some true :=
  ⟨c3_wait_race_first_settles_no_dangling.2.2.2.1
      [WSignal.authorized, WSignal.providerUpdate] (by decide),
   c3_wait_race_first_settles_no_dangling.2.2.2.2
      ⟨some true, false, true⟩ true [WSignal.providerUpdate] rfl⟩

end Part000
lemma Part000.connectBody_ok_shape (env : Part000.Env) (chainId? : Option Int)
    (tr : List CEvent) (r : ConnectResult)
    (h : Part000.connectBody env chainId? = (tr, Except.ok r)) :
    ∃ (accounts : Option (List String)) (pci : Option String)
      (strs : List CEvent) (chain : ChainDesc),
      Part000.accountList env = Except.ok accounts ∧
      obtainProviderChainId env.provider env.chainIdField
        env.ethChainIdOutcome = Except.ok pci ∧
      chainSwitch env.switchChainOutcome env.isChainUnsupported
        ⟨parseInt16OrNaN pci, false⟩ chainId? = (strs, Except.ok chain) ∧
      r = { isConnected := true, account := selectedAccountOf accounts,
            chain := chain, provider := env.provider } ∧
      tr = (if env.sdkReady then [] else [CEvent.sdkInit]) ++
        [CEvent.sdkConnectTriggered, CEvent.authWaitDone,
         CEvent.resyncListeners, CEvent.accountsDiscovered,
         CEvent.chainDiscovered] ++ strs ++
        (if env.shimDisconnect && env.storagePresent then
          [CEvent.persisted env.shimKey true] else []) ++
        [CEvent.returned] := by
  unfold Part000.connectBody at h
  simp only [] at h
  split at h
  · simp at h
  · split at h
    · simp at h
    · split at h
      · simp at h
      · split at h
        · simp at h
        · rename_i accounts hacc pci hpci x trs chain hsw
          rw [Prod.mk.injEq] at h
          obtain ⟨htr, hr⟩ := h
          refine ⟨_, _, trs, chain, accounts, hpci, hsw,
            (Except.ok.inj hr).symm, ?_⟩
          rw [← htr]
          split_ifs <;> simp [List.append_assoc]
lemma MetaMaskTS.connectBody_ok_shape_ts (env : MetaMaskTS.Env)
    (chainId? : Option Int) (tr : List CEvent) (r : ConnectResult)
    (h : MetaMaskTS.connectBody env chainId? = (tr, Except.ok r)) :
    ∃ (accounts : Option (List String)) (pci : Option String)
      (strs : List CEvent) (chain : ChainDesc),
      env.sdkConnectOutcome = Except.ok accounts ∧
      obtainProviderChainId env.provider env.chainIdField
        env.ethChainIdOutcome = Except.ok pci ∧
      chainSwitch env.switchChainOutcome env.isChainUnsupported
        ⟨parseInt16OrNaN pci, false⟩ chainId? = (strs, Except.ok chain) ∧
      r = { isConnected := true, account := selectedAccountOf accounts,
            chain := chain, provider := env.provider } ∧
      tr = (if env.sdkReady then [] else [CEvent.sdkInit]) ++
        [CEvent.sdkConnectTriggered, CEvent.accountsDiscovered,
         CEvent.resyncListeners] ++
        (if !env.extensionActive && !env.isAuthorized then
          [CEvent.authWaitDone] else []) ++
        [CEvent.chainDiscovered] ++ strs ++
        (if env.shimDisconnect && env.storagePresent then
          [CEvent.persisted env.shimKey true] else []) ++
        [CEvent.returned] := by
  unfold MetaMaskTS.connectBody at h
  simp only [] at h
  split at h
  · simp at h
  · split at h
    · simp at h
    · split at h
      · simp at h
      · split at h
        · simp at h
        · rename_i accounts hacc pci hpci x trs chain hsw
          rw [Prod.mk.injEq] at h
          obtain ⟨htr, hr⟩ := h
          refine ⟨_, _, trs, chain, accounts, hpci, hsw,
            (Except.ok.inj hr).symm, ?_⟩
          rw [← htr]
          split_ifs <;> simp [List.append_assoc]
lemma Part000.connect_fst (env : Part000.Env) (c : Option Int) :
    (Part000.connect env c).1 = (Part000.connectBody env c).1 := by
  rcases hb : Part000.connectBody env c with ⟨tr, res⟩
  cases res <;> simp [Part000.connect, hb]

lemma Part000.connect_ok_iff (env : Part000.Env) (c : Option Int)
    (tr : List CEvent) (r : ConnectResult) :
    Part000.connect env c = (tr, Except.ok r) ↔
      Part000.connectBody env c = (tr, Except.ok r) := by
  rcases hb : Part000.connectBody env c with ⟨tr', res⟩
  cases res <;> simp [Part000.connect, hb]

lemma Part000.connect_error_classified (env : Part000.Env) (c : Option Int)
    (tr : List CEvent) (e : Err)
    (h : Part000.connectBody env c = (tr, Except.error e)) :
    Part000.connect env c =
      (tr, Except.error (classify env.isUserRejected e)) := by
  simp [Part000.connect, h]

lemma MetaMaskTS.connect_fst_ts (env : MetaMaskTS.Env) (c : Option Int) :
    (MetaMaskTS.connect env c).1 = (MetaMaskTS.connectBody env c).1 := by
  rcases hb : MetaMaskTS.connectBody env c with ⟨tr, res⟩
  cases res <;> simp [MetaMaskTS.connect, hb]

lemma MetaMaskTS.connect_ok_iff_ts (env : MetaMaskTS.Env) (c : Option Int)
    (tr : List CEvent) (r : ConnectResult) :
    MetaMaskTS.connect env c = (tr, Except.ok r) ↔
      MetaMaskTS.connectBody env c = (tr, Except.ok r) := by
  rcases hb : MetaMaskTS.connectBody env c with ⟨tr', res⟩
  cases res <;> simp [MetaMaskTS.connect, hb]

lemma MetaMaskTS.connect_error_classified_ts (env : MetaMaskTS.Env)
    (c : Option Int) (tr : List CEvent) (e : Err)
    (h : MetaMaskTS.connectBody env c = (tr, Except.error e)) :
    MetaMaskTS.connect env c =
      (tr, Except.error (classify env.isUserRejected e)) := by
  simp [MetaMaskTS.connect, h]

lemma chainSwitch_fst_cases (sw : Int → Except Err Int)
    (isUn : Int → Bool) (chain0 : ChainDesc) (c? : Option Int) :
    (chainSwitch sw isUn chain0 c?).1 = [] ∨
      (chainSwitch sw isUn chain0 c?).1 = [CEvent.chainSwitched] := by
  unfold chainSwitch
  rcases c? with _ | c
  · exact Or.inl rfl
  · by_cases h : chain0.id = some c
    · simp [h]
    · simp only [h, if_false, if_neg h]
      rcases sw c with e | nid <;> simp
/-- C2, counterexample: in the metaMaskSDK.ts variant a successful
`connect()` discovers the account list (from the awaited `sdk.connect()`)
strictly before the listener resync, and the resync runs strictly before
the legacy authorization wait completes — contradicting the claim that the
resync runs after the authorization wait and before account discovery. -/
theorem c2_resync_order_counterexample :
    (MetaMaskTS.connect benignEnvB none).2 =
      Except.ok { isConnected := true, account := "0xabc",
                  chain := { id := some 1, unsupported := false },
                  provider := some 0 } ∧
    (MetaMaskTS.connect benignEnvB none).1.indexOf
        CEvent.accountsDiscovered <
      (MetaMaskTS.connect benignEnvB none).1.indexOf
        CEvent.resyncListeners ∧
    (MetaMaskTS.connect benignEnvB none).1.indexOf
        CEvent.resyncListeners <
      (MetaMaskTS.connect benignEnvB none).1.indexOf CEvent.authWaitDone := by
  refine ⟨by decide, by decide, by decide⟩

/-- C2, amended: in every successful `connect()` of the part_000 variant
the listener resync runs exactly once, after the authorization wait has
completed and before account and chain discovery; in every successful
`connect()` of the metaMaskSDK.ts variant it still runs exactly once and
before chain-id discovery, but only after the account list has been
obtained from the awaited SDK connect, and before (not after) the legacy
authorized wait whenever that wait occurs. -/
theorem c2_resync_exactly_once_ordering :
    (∀ (env : Part000.Env) (c : Option Int) (tr : List CEvent)
      (r : ConnectResult), Part000.connect env c = (tr, Except.ok r) →
      tr.count CEvent.resyncListeners = 1 ∧
      tr.indexOf CEvent.authWaitDone < tr.indexOf CEvent.resyncListeners ∧
      tr.indexOf CEvent.resyncListeners <
        tr.indexOf CEvent.accountsDiscovered ∧
      tr.indexOf CEvent.resyncListeners <
        tr.indexOf CEvent.chainDiscovered) ∧
    (∀ (env : MetaMaskTS.Env) (c : Option Int) (tr : List CEvent)
      (r : ConnectResult), MetaMaskTS.connect env c = (tr, Except.ok r) →
      tr.count CEvent.resyncListeners = 1 ∧
      tr.indexOf CEvent.accountsDiscovered <
        tr.indexOf CEvent.resyncListeners ∧
      tr.indexOf CEvent.resyncListeners <
        tr.indexOf CEvent.chainDiscovered ∧
      (CEvent.authWaitDone ∈ tr →
        tr.indexOf CEvent.resyncListeners <
          tr.indexOf CEvent.authWaitDone)) := by
  constructor
  · intro env c tr r h
    obtain ⟨accounts, pci, strs, chain, hacc, hpci, hsw, hr, htr⟩ :=
      Part000.connectBody_ok_shape env c tr r
        ((Part000.connect_ok_iff env c tr r).mp h)
    have hstrs := chainSwitch_fst_cases env.switchChainOutcome
      env.isChainUnsupported ⟨parseInt16OrNaN pci, false⟩ c
    rw [hsw] at hstrs
    simp only at hstrs
    subst htr
    rcases hstrs with hstrs | hstrs <;> subst hstrs <;> split_ifs <;>
      exact ⟨rfl, Nat.lt_of_sub_eq_succ rfl, Nat.lt_of_sub_eq_succ rfl,
        Nat.lt_of_sub_eq_succ rfl⟩
  · intro env c tr r h
    obtain ⟨accounts, pci, strs, chain, hacc, hpci, hsw, hr, htr⟩ :=
      MetaMaskTS.connectBody_ok_shape_ts env c tr r
        ((MetaMaskTS.connect_ok_iff_ts env c tr r).mp h)
    have hstrs := chainSwitch_fst_cases env.switchChainOutcome
      env.isChainUnsupported ⟨parseInt16OrNaN pci, false⟩ c
    rw [hsw] at hstrs
    simp only at hstrs
    subst htr
    rcases hstrs with hstrs | hstrs <;> subst hstrs <;> split_ifs <;>
      exact ⟨rfl, Nat.lt_of_sub_eq_succ rfl, Nat.lt_of_sub_eq_succ rfl,
        fun hmem => Nat.lt_of_sub_eq_succ rfl⟩

/-- Witness for C2 at the benign environments. -/
theorem c2_resync_exactly_once_ordering_witness :
    ((Part000.connect benignEnvA none).1.count CEvent.resyncListeners = 1 ∧
      (Part000.connect benignEnvA none).1.indexOf CEvent.authWaitDone <
        (Part000.connect benignEnvA none).1.indexOf
          CEvent.resyncListeners) ∧
    (MetaMaskTS.connect benignEnvB none).1.count CEvent.resyncListeners =
      1 :=
  ⟨⟨(c2_resync_exactly_once_ordering.1 benignEnvA none
      [CEvent.sdkConnectTriggered, CEvent.authWaitDone,
       CEvent.resyncListeners, CEvent.accountsDiscovered,
       CEvent.chainDiscovered,
       CEvent.persisted "metaMaskSDK.shimDisconnect" true, CEvent.returned]
      { isConnected := true, account := "0xabc",
        chain := { id := some 1, unsupported := false }, provider := some 0 }
      (by decide)).1,
    (c2_resync_exactly_once_ordering.1 benignEnvA none
      [CEvent.sdkConnectTriggered, CEvent.authWaitDone,
       CEvent.resyncListeners, CEvent.accountsDiscovered,
       CEvent.chainDiscovered,
       CEvent.persisted "metaMaskSDK.shimDisconnect" true, CEvent.returned]
      { isConnected := true, account := "0xabc",
        chain := { id := some 1, unsupported := false }, provider := some 0 }
      (by decide)).2.1⟩,
   (c2_resync_exactly_once_ordering.2 benignEnvB none
      [CEvent.sdkConnectTriggered, CEvent.accountsDiscovered,
       CEvent.resyncListeners, CEvent.authWaitDone, CEvent.chainDiscovered,
       CEvent.persisted "metaMaskSDK.shimDisconnect" true, CEvent.returned]
      { isConnected := true, account := "0xabc",
        chain := { id := some 1, unsupported := false }, provider := some 0 }
      (by decide)).1⟩
/-- C4, counterexample: in the metaMaskSDK.ts variant, a rejection of the
SDK's connect/handshake trigger alone (everything else benign) aborts
`connect()`: the awaited `sdk.connect()` rejection propagates to the
outermost classifier and the call fails, while the same environment with a
resolving trigger succeeds. -/
theorem c4_trigger_rejection_aborts_counterexample :
    (MetaMaskTS.connect
      { benignEnvB with sdkConnectOutcome := Except.error ⟨7, none⟩ }
      none).2 = Except.error (ThrownError.raw ⟨7, none⟩) ∧
    (MetaMaskTS.connect benignEnvB none).2 =
      Except.ok { isConnected := true, account := "0xabc",
                  chain := { id := some 1, unsupported := false },
                  provider := some 0 } :=
  ⟨by decide, by decide⟩

/-- C4, amended: in the part_000 variant the trigger's outcome is consumed
by `.catch(ignored)` and the whole `connect()` run — trace and result — is
independent of it, and once initialization passes, the run always reaches
the authorization wait and the listener resync; in the metaMaskSDK.ts
variant `sdk.connect()` is awaited, so its rejection alone makes
`connect()` fail with that error, classified by the outermost catch. -/
theorem c4_trigger_rejection_swallowed_part000_only :
    (∀ (env : Part000.Env) (c : Option Int) (x : Except Err Unit),
      Part000.connect { env with sdkConnectOutcome := x } c =
        Part000.connect { env with sdkConnectOutcome := Except.ok () } c) ∧
    (∀ (env : Part000.Env) (c : Option Int),
      env.sdkReady = true ∨ env.sdkInitOutcome = Except.ok () →
      CEvent.authWaitDone ∈ (Part000.connect env c).1 ∧
      CEvent.resyncListeners ∈ (Part000.connect env c).1) ∧
    (∀ (env : MetaMaskTS.Env) (c : Option Int) (e : Err),
      env.sdkConnectOutcome = Except.error e →
      env.sdkReady = true ∨ env.sdkInitOutcome = Except.ok () →
      MetaMaskTS.connect env c =
        ((if env.sdkReady then [] else [CEvent.sdkInit]) ++
          [CEvent.sdkConnectTriggered],
         Except.error (classify env.isUserRejected e))) := by
  refine ⟨?_, ?_, ?_⟩
  · intro env c x
    cases env
    rfl
  · intro env c h
    have hinit :
        (if env.sdkReady then Except.ok () else env.sdkInitOutcome) =
          Except.ok () := by
      rcases h with h | h <;> simp [h]
    constructor <;>
      · rw [Part000.connect_fst]
        unfold Part000.connectBody
        simp only [hinit]
        repeat' split
        all_goals simp
  · intro env c e he h
    have hinit :
        (if env.sdkReady then Except.ok () else env.sdkInitOutcome) =
          Except.ok () := by
      rcases h with h | h <;> simp [h]
    have hb : MetaMaskTS.connectBody env c =
        ((if env.sdkReady then [] else [CEvent.sdkInit]) ++
          [CEvent.sdkConnectTriggered], Except.error e) := by
      unfold MetaMaskTS.connectBody
      simp only [hinit, he]
    exact MetaMaskTS.connect_error_classified_ts env c _ e hb

/-- Witness for C4 at concrete environments. -/
theorem c4_trigger_rejection_swallowed_part000_only_witness :
    (CEvent.authWaitDone ∈
      (Part000.connect
        { benignEnvA with sdkConnectOutcome := Except.error ⟨7, none⟩ }
        none).1) ∧
    MetaMaskTS.connect
        { benignEnvB with sdkConnectOutcome := Except.error ⟨7, none⟩ }
        none =
      ([CEvent.sdkConnectTriggered],
       Except.error (classify benignEnvB.isUserRejected ⟨7, none⟩)) :=
  ⟨(c4_trigger_rejection_swallowed_part000_only.2.1
      { benignEnvA with sdkConnectOutcome := Except.error ⟨7, none⟩ }
      none (Or.inl rfl)).1,
   c4_trigger_rejection_swallowed_part000_only.2.2
      { benignEnvB with sdkConnectOutcome := Except.error ⟨7, none⟩ }
      none ⟨7, none⟩ rfl (Or.inl rfl)⟩
/-- C5: every error raised inside `connect()` is classified exactly once,
by the single outermost catch: an error satisfying the base connector's
user-rejected predicate is re-raised as a `UserRejectedRequestError`
wrapping it (also when its code is -32002 — the predicate is checked
first); otherwise an error whose numeric `code` equals -32002 is re-raised
as a `ResourceUnavailableRpcError` wrapping it; any other error value is
re-thrown unchanged.  In both variants, whenever the try body fails with a
raw error, `connect()` fails with exactly one application of `classify` to
that raw error. -/
theorem c5_error_classification_once_outermost :
    (∀ (pred : Err → Bool) (e : Err),
      (pred e = true →
        classify pred e = ThrownError.userRejectedRequestError e) ∧
      (pred e = false → e.code = some (-32002) →
        classify pred e = ThrownError.resourceUnavailableRpcError e) ∧
      (pred e = false → e.code ≠ some (-32002) →
        classify pred e = ThrownError.raw e)) ∧
    (∀ (env : Part000.Env) (c : Option Int) (tr : List CEvent) (e : Err),
      Part000.connectBody env c = (tr, Except.error e) →
      Part000.connect env c =
        (tr, Except.error (classify env.isUserRejected e))) ∧
    (∀ (env : MetaMaskTS.Env) (c : Option Int) (tr : List CEvent) (e : Err),
      MetaMaskTS.connectBody env c = (tr, Except.error e) →
      MetaMaskTS.connect env c =
        (tr, Except.error (classify env.isUserRejected e))) := by
  refine ⟨?_, Part000.connect_error_classified,
    MetaMaskTS.connect_error_classified_ts⟩
  intro pred e
  refine ⟨fun h => by simp [classify, h], fun h hc => by simp [classify, h, hc],
    fun h hc => by simp [classify, h, hc]⟩

/-- Witness for C5: a -32002 error that also matches the user-rejected
predicate yields the user-rejection error; a plain -32002 error yields the
resource-unavailable error; an unmatched error value is re-thrown
unchanged; and a failing request inside part_000's `connect()` surfaces as
exactly the classification of the raw error. -/
theorem c5_error_classification_once_outermost_witness :
    classify (fun _ => true) ⟨1, some (-32002)⟩ =
      ThrownError.userRejectedRequestError ⟨1, some (-32002)⟩ ∧
    classify (fun _ => false) ⟨2, some (-32002)⟩ =
      ThrownError.resourceUnavailableRpcError ⟨2, some (-32002)⟩ ∧
    classify (fun _ => false) ⟨3, some 4001⟩ =
      ThrownError.raw ⟨3, some 4001⟩ ∧
    Part000.connect
        { benignEnvA with
          requestAccountsOutcome := Except.error ⟨5, some (-32002)⟩ } none =
      ([CEvent.sdkConnectTriggered, CEvent.authWaitDone,
        CEvent.resyncListeners],
       Except.error (classify benignEnvA.isUserRejected ⟨5, some (-32002)⟩)) :=
  ⟨(c5_error_classification_once_outermost.1 (fun _ => true)
      ⟨1, some (-32002)⟩).1 rfl,
   (c5_error_classification_once_outermost.1 (fun _ => false)
      ⟨2, some (-32002)⟩).2.1 rfl rfl,
   (c5_error_classification_once_outermost.1 (fun _ => false)
      ⟨3, some 4001⟩).2.2 rfl (by decide),
   c5_error_classification_once_outermost.2.1
      { benignEnvA with
        requestAccountsOutcome := Except.error ⟨5, some (-32002)⟩ } none
      [CEvent.sdkConnectTriggered, CEvent.authWaitDone,
       CEvent.resyncListeners] ⟨5, some (-32002)⟩ (by decide)⟩
lemma chainSwitch_ok_cases (sw : Int → Except Err Int) (isUn : Int → Bool)
    (chain0 : ChainDesc) (c? : Option Int) (strs : List CEvent)
    (chain : ChainDesc)
    (h : chainSwitch sw isUn chain0 c? = (strs, Except.ok chain)) :
    ((c? = none ∨ ∃ cc, c? = some cc ∧ chain0.id = some cc) ∧
      chain = chain0) ∨
    (∃ cc nid, c? = some cc ∧ chain0.id ≠ some cc ∧ sw cc = Except.ok nid ∧
      chain = { id := some nid, unsupported := isUn nid }) := by
  unfold chainSwitch at h
  rcases c? with _ | cc
  · left
    simp at h
    exact ⟨Or.inl rfl, h.2.symm⟩
  · by_cases hid : chain0.id = some cc
    · left
      simp [hid] at h
      exact ⟨Or.inr ⟨cc, rfl, hid⟩, h.2.symm⟩
    · right
      simp only [hid, if_neg hid] at h
      rcases hsw : sw cc with e | nid <;> rw [hsw] at h
      · simp at h
      · simp at h
        exact ⟨cc, nid, rfl, hid, hsw, h.2.symm⟩

/-- C6: for every successful `connect()` (both variants), if no chain
switch was requested, or the requested id equals the discovered one, the
returned `chain` is the base-16 parse of the chain-id string obtained from
the provider with `unsupported := false`; if a different id was requested,
the returned `chain.id` is the id returned by the base connector's
`switchChain` and `chain.unsupported` is `isChainUnsupported` of that
returned id (not of the originally discovered one). -/
theorem c6_chain_reconciliation :
    (∀ (env : Part000.Env) (c : Option Int) (tr : List CEvent)
      (r : ConnectResult), Part000.connect env c = (tr, Except.ok r) →
      ∀ pci, obtainProviderChainId env.provider env.chainIdField
          env.ethChainIdOutcome = Except.ok pci →
        (c = none →
          r.chain = { id := parseInt16OrNaN pci, unsupported := false }) ∧
        (∀ cc, c = some cc → parseInt16OrNaN pci = some cc →
          r.chain = { id := parseInt16OrNaN pci, unsupported := false }) ∧
        (∀ cc, c = some cc → parseInt16OrNaN pci ≠ some cc →
          ∃ nid, env.switchChainOutcome cc = Except.ok nid ∧
            r.chain = { id := some nid,
                        unsupported := env.isChainUnsupported nid })) ∧
    (∀ (env : MetaMaskTS.Env) (c : Option Int) (tr : List CEvent)
      (r : ConnectResult), MetaMaskTS.connect env c = (tr, Except.ok r) →
      ∀ pci, obtainProviderChainId env.provider env.chainIdField
          env.ethChainIdOutcome = Except.ok pci →
        (c = none →
          r.chain = { id := parseInt16OrNaN pci, unsupported := false }) ∧
        (∀ cc, c = some cc → parseInt16OrNaN pci = some cc →
          r.chain = { id := parseInt16OrNaN pci, unsupported := false }) ∧
        (∀ cc, c = some cc → parseInt16OrNaN pci ≠ some cc →
          ∃ nid, env.switchChainOutcome cc = Except.ok nid ∧
            r.chain = { id := some nid,
                        unsupported := env.isChainUnsupported nid })) := by
  constructor
  · intro env c tr r h pci hpci
    obtain ⟨accounts, pci', strs, chain, hacc, hpci', hsw, hr, htr⟩ :=
      Part000.connectBody_ok_shape env c tr r
        ((Part000.connect_ok_iff env c tr r).mp h)
    rw [hpci] at hpci'
    have hpe : pci' = pci := Except.ok.inj hpci'.symm
    subst hpe
    subst hr
    rcases chainSwitch_ok_cases _ _ _ _ _ _ hsw with
      ⟨hcond, hchain⟩ | ⟨cc, nid, hc, hid, hnid, hchain⟩
    · subst hchain
      refine ⟨fun _ => rfl, fun cc hc hpar => rfl, ?_⟩
      intro cc hc hne
      rcases hcond with hcn | ⟨cc', hcc', hid'⟩
      · rw [hc] at hcn; exact absurd hcn (by simp)
      · rw [hc] at hcc'
        obtain rfl : cc = cc' := Option.some_inj.mp hcc'
        exact absurd hid' hne
    · subst hchain
      subst hc
      refine ⟨fun hcn => by simp at hcn, ?_, ?_⟩
      · intro cc' hcc' hpar
        obtain rfl : cc = cc' := Option.some_inj.mp hcc'
        exact absurd hpar hid
      · intro cc' hcc' hne
        obtain rfl : cc = cc' := Option.some_inj.mp hcc'
        exact ⟨nid, hnid, rfl⟩
  · intro env c tr r h pci hpci
    obtain ⟨accounts, pci', strs, chain, hacc, hpci', hsw, hr, htr⟩ :=
      MetaMaskTS.connectBody_ok_shape_ts env c tr r
        ((MetaMaskTS.connect_ok_iff_ts env c tr r).mp h)
    rw [hpci] at hpci'
    have hpe : pci' = pci := Except.ok.inj hpci'.symm
    subst hpe
    subst hr
    rcases chainSwitch_ok_cases _ _ _ _ _ _ hsw with
      ⟨hcond, hchain⟩ | ⟨cc, nid, hc, hid, hnid, hchain⟩
    · subst hchain
      refine ⟨fun _ => rfl, fun cc hc hpar => rfl, ?_⟩
      intro cc hc hne
      rcases hcond with hcn | ⟨cc', hcc', hid'⟩
      · rw [hc] at hcn; exact absurd hcn (by simp)
      · rw [hc] at hcc'
        obtain rfl : cc = cc' := Option.some_inj.mp hcc'
        exact absurd hid' hne
    · subst hchain
      subst hc
      refine ⟨fun hcn => by simp at hcn, ?_, ?_⟩
      · intro cc' hcc' hpar
        obtain rfl : cc = cc' := Option.some_inj.mp hcc'
        exact absurd hpar hid
      · intro cc' hcc' hne
        obtain rfl : cc = cc' := Option.some_inj.mp hcc'
        exact ⟨nid, hnid, rfl⟩
/-- Witness for C6 at the chain-switch scenario: requesting chain 137 with
discovered chain 1 yields the switched id with its own unsupported flag. -/
theorem c6_chain_reconciliation_witness :
    ({ isConnected := true, account := "0xabc",
       chain := { id := some 137, unsupported := true },
       provider := some 0 } : ConnectResult).chain.unsupported = true := by
  have h := (c6_chain_reconciliation.1 switchEnvA (some 137)
    [CEvent.sdkConnectTriggered, CEvent.authWaitDone, CEvent.resyncListeners,
     CEvent.accountsDiscovered, CEvent.chainDiscovered, CEvent.chainSwitched,
     CEvent.persisted "metaMaskSDK.shimDisconnect" true, CEvent.returned]
    { isConnected := true, account := "0xabc",
      chain := { id := some 137, unsupported := true }, provider := some 0 }
    (by decide) (some "0x1") (by decide)).2.2
  obtain ⟨nid, hnid, hchain⟩ := h 137 rfl (by decide)
  obtain rfl : (137 : Int) = nid := Except.ok.inj hnid
  rw [hchain]
  rfl

/-- C7: in both variants, a successful `connect()` returns as `account`
exactly `accounts?.[0] ?? '0x'` applied to the account list the run
obtained (`eth_requestAccounts` through the refreshed provider in
part_000; the awaited `sdk.connect()` result in metaMaskSDK.ts): the
zero-address literal "0x" when the list is absent or empty, its element at
index 0 otherwise. -/
theorem c7_account_default_zero_address :
    (∀ acc : Option (List String), acc = none ∨ acc = some [] →
      selectedAccountOf acc = "0x") ∧
    (∀ (a : String) (l : List String),
      selectedAccountOf (some (a :: l)) = a) ∧
    (∀ (env : Part000.Env) (c : Option Int) (tr : List CEvent)
      (r : ConnectResult) (accounts : Option (List String)),
      Part000.connect env c = (tr, Except.ok r) →
      Part000.accountList env = Except.ok accounts →
      r.account = selectedAccountOf accounts) ∧
    (∀ (env : MetaMaskTS.Env) (c : Option Int) (tr : List CEvent)
      (r : ConnectResult) (accounts : Option (List String)),
      MetaMaskTS.connect env c = (tr, Except.ok r) →
      env.sdkConnectOutcome = Except.ok accounts →
      r.account = selectedAccountOf accounts) := by
  refine ⟨?_, fun a l => rfl, ?_, ?_⟩
  · rintro acc (rfl | rfl) <;> rfl
  · intro env c tr r accounts h hacc
    obtain ⟨accounts', pci, strs, chain, hacc', hpci, hsw, hr, htr⟩ :=
      Part000.connectBody_ok_shape env c tr r
        ((Part000.connect_ok_iff env c tr r).mp h)
    rw [hacc] at hacc'
    obtain rfl : accounts = accounts' := Except.ok.inj hacc'
    rw [hr]
  · intro env c tr r accounts h hacc
    obtain ⟨accounts', pci, strs, chain, hacc', hpci, hsw, hr, htr⟩ :=
      MetaMaskTS.connectBody_ok_shape_ts env c tr r
        ((MetaMaskTS.connect_ok_iff_ts env c tr r).mp h)
    rw [hacc] at hacc'
    obtain rfl : accounts = accounts' := Except.ok.inj hacc'
    rw [hr]

/-- Witness for C7: an empty account list yields "0x"; the benign run
returns the account at index 0. -/
theorem c7_account_default_zero_address_witness :
    selectedAccountOf (some ([] : List String)) = "0x" ∧
    ({ isConnected := true, account := "0xabc",
       chain := { id := some 1, unsupported := false },
       provider := some 0 } : ConnectResult).account =
      selectedAccountOf (some ["0xabc"]) :=
  ⟨c7_account_default_zero_address.1 (some []) (Or.inr rfl),
   c7_account_default_zero_address.2.2.1 benignEnvA none
    [CEvent.sdkConnectTriggered, CEvent.authWaitDone, CEvent.resyncListeners,
     CEvent.accountsDiscovered, CEvent.chainDiscovered,
     CEvent.persisted "metaMaskSDK.shimDisconnect" true, CEvent.returned]
    { isConnected := true, account := "0xabc",
      chain := { id := some 1, unsupported := false }, provider := some 0 }
    (some ["0xabc"]) (by decide) rfl⟩
lemma Part000.connect_ok_chain_no_request (env : Part000.Env)
    (tr : List CEvent) (r : ConnectResult)
    (h : Part000.connect env none = (tr, Except.ok r)) (pci : Option String)
    (hpci : obtainProviderChainId env.provider env.chainIdField
      env.ethChainIdOutcome = Except.ok pci) :
    r.chain = { id := parseInt16OrNaN pci, unsupported := false } := by
  obtain ⟨accounts, pci', strs, chain, hacc, hpci', hsw, hr, htr⟩ :=
    Part000.connectBody_ok_shape env none tr r
      ((Part000.connect_ok_iff env none tr r).mp h)
  rw [hpci] at hpci'
  obtain rfl : pci = pci' := Except.ok.inj hpci'
  rcases chainSwitch_ok_cases _ _ _ _ _ _ hsw with ⟨hcond, hchain⟩ |
    ⟨cc, nid, hc, hid, hnid, hchain⟩
  · subst hchain; rw [hr]
  · exact absurd hc (by simp)

lemma MetaMaskTS.connect_ok_chain_no_request_ts (env : MetaMaskTS.Env)
    (tr : List CEvent) (r : ConnectResult)
    (h : MetaMaskTS.connect env none = (tr, Except.ok r)) (pci : Option String)
    (hpci : obtainProviderChainId env.provider env.chainIdField
      env.ethChainIdOutcome = Except.ok pci) :
    r.chain = { id := parseInt16OrNaN pci, unsupported := false } := by
  obtain ⟨accounts, pci', strs, chain, hacc, hpci', hsw, hr, htr⟩ :=
    MetaMaskTS.connectBody_ok_shape_ts env none tr r
      ((MetaMaskTS.connect_ok_iff_ts env none tr r).mp h)
  rw [hpci] at hpci'
  obtain rfl : pci = pci' := Except.ok.inj hpci'
  rcases chainSwitch_ok_cases _ _ _ _ _ _ hsw with ⟨hcond, hchain⟩ |
    ⟨cc, nid, hc, hid, hnid, hchain⟩
  · subst hchain; rw [hr]
  · exact absurd hc (by simp)

/-- C8, counterexample: when the refreshed provider reference is absent —
which both sources allow, `#provider` is an optional field and every
access is optionally chained — neither the readable `chainId` field nor
the `eth_chainId` fallback supplies a value (the request is never even
issued), yet `connect()` still reaches the parse and succeeds: the parse
is applied to a missing value and produces `NaN` (`chain.id = none`),
even though the environment had a chain-id string to offer. -/
theorem c8_parse_missing_value_counterexample :
    obtainProviderChainId none (some "0x1") (Except.ok (some "0x1")) =
      Except.ok none ∧
    (Part000.connect { benignEnvA with provider := none } none).2 =
      Except.ok { isConnected := true, account := "0x",
                  chain := { id := none, unsupported := false },
                  provider := none } :=
  ⟨by decide, by decide⟩

/-- C8, amended: provided the refreshed provider reference is present and
either its readable `chainId` field is truthy or the `eth_chainId` request
resolves to a string, a string value is in hand before the parse; and in
every successful `connect()` (both variants) the parse input is exactly
the value produced by this obtain step. -/
theorem c8_chain_id_in_hand_when_provider_present :
    (∀ (p : Nat) (field : Option String) (rpc : Except Err (Option String)),
      jsTruthyStr field = true →
      obtainProviderChainId (some p) field rpc = Except.ok field ∧
        ∃ s, field = some s) ∧
    (∀ (p : Nat) (field : Option String) (s : String),
      jsTruthyStr field = false →
      obtainProviderChainId (some p) field (Except.ok (some s)) =
        Except.ok (some s)) ∧
    (∀ (env : Part000.Env) (c : Option Int) (tr : List CEvent)
      (r : ConnectResult), Part000.connect env c = (tr, Except.ok r) →
      ∀ pci, obtainProviderChainId env.provider env.chainIdField
          env.ethChainIdOutcome = Except.ok pci →
        (c = none → r.chain.id = parseInt16OrNaN pci)) ∧
    (∀ (env : MetaMaskTS.Env) (c : Option Int) (tr : List CEvent)
      (r : ConnectResult), MetaMaskTS.connect env c = (tr, Except.ok r) →
      ∀ pci, obtainProviderChainId env.provider env.chainIdField
          env.ethChainIdOutcome = Except.ok pci →
        (c = none → r.chain.id = parseInt16OrNaN pci)) := by
  refine ⟨?_, ?_, ?_, ?_⟩
  · intro p field rpc htruthy
    rcases field with _ | s
    · simp [jsTruthyStr] at htruthy
    · exact ⟨by simp [obtainProviderChainId, htruthy], s, rfl⟩
  · intro p field s hfalsy
    simp [obtainProviderChainId, hfalsy]
  · intro env c tr r h pci hpci hcn
    subst hcn
    rw [Part000.connect_ok_chain_no_request env tr r h pci hpci]
  · intro env c tr r h pci hpci hcn
    subst hcn
    rw [MetaMaskTS.connect_ok_chain_no_request_ts env tr r h pci hpci]
/-- Witness for C8 at concrete inputs: a truthy field wins without the
request; a present provider with an absent field falls back to the
request's string; the benign run's chain id is the parse of the obtained
string. -/
theorem c8_chain_id_in_hand_when_provider_present_witness :
    obtainProviderChainId (some 0) (some "0x1") (Except.error ⟨9, none⟩) =
      Except.ok (some "0x1") ∧
    obtainProviderChainId (some 0) none (Except.ok (some "0x2")) =
      Except.ok (some "0x2") ∧
    ({ isConnected := true, account := "0xabc",
       chain := { id := some 1, unsupported := false },
       provider := some 0 } : ConnectResult).chain.id =
      parseInt16OrNaN (some "0x1") :=
  ⟨(c8_chain_id_in_hand_when_provider_present.1 0 (some "0x1")
      (Except.error ⟨9, none⟩) rfl).1,
   c8_chain_id_in_hand_when_provider_present.2.1 0 none "0x2" rfl,
   c8_chain_id_in_hand_when_provider_present.2.2.1 benignEnvA none
    [CEvent.sdkConnectTriggered, CEvent.authWaitDone, CEvent.resyncListeners,
     CEvent.accountsDiscovered, CEvent.chainDiscovered,
     CEvent.persisted "metaMaskSDK.shimDisconnect" true, CEvent.returned]
    { isConnected := true, account := "0xabc",
      chain := { id := some 1, unsupported := false }, provider := some 0 }
    (by decide) (some "0x1") (by decide) rfl⟩

/-- C9: constructing the connector with neither a pre-built SDK instance
nor SDK construction options throws the invalid-parameters configuration
error synchronously, before any SDK instance is created (the constructor
trace holds only the throw); constructing with at least one of the two
never produces this error (both variants). -/
theorem c9_constructor_requires_sdk_or_options :
    (∀ newSDK : Option Nat → Nat,
      Part000.constructor newSDK none none =
        ([CtorEvent.threwInvalidParams],
         Except.error "MetaMaskConnector invalid sdk parameters") ∧
      CtorEvent.sdkConstructed ∉ (Part000.constructor newSDK none none).1 ∧
      ∀ (sdk? : Option Nat) (opts? : Option Nat),
        sdk?.isSome ∨ opts?.isSome → ∀ e : String,
        (Part000.constructor newSDK sdk? opts?).2 ≠ Except.error e) ∧
    (∀ newSDK : Option Nat → Nat,
      MetaMaskTS.constructor newSDK none none =
        ([CtorEvent.threwInvalidParams],
         Except.error "MetaMaskConnector invalid sdk parameters") ∧
      CtorEvent.sdkConstructed ∉ (MetaMaskTS.constructor newSDK none none).1 ∧
      ∀ (sdk? : Option Nat) (opts? : Option Nat),
        sdk?.isSome ∨ opts?.isSome → ∀ e : String,
        (MetaMaskTS.constructor newSDK sdk? opts?).2 ≠ Except.error e) := by
  constructor
  · intro newSDK
    refine ⟨rfl, by simp [Part000.constructor], ?_⟩
    intro sdk? opts? h e
    rcases sdk? with _ | s
    · rcases opts? with _ | o
      · simp at h
      · simp [Part000.constructor]
    · simp [Part000.constructor]
  · intro newSDK
    refine ⟨rfl, by simp [MetaMaskTS.constructor], ?_⟩
    intro sdk? opts? h e
    rcases sdk? with _ | s
    · rcases opts? with _ | o
      · simp at h
      · simp [MetaMaskTS.constructor]
    · simp [MetaMaskTS.constructor]

/-- Witness for C9: a connector built from options alone is accepted. -/
theorem c9_constructor_requires_sdk_or_options_witness :
    (Part000.constructor (fun _ => 0) none (some 1)).2 ≠
      Except.error "MetaMaskConnector invalid sdk parameters" :=
  (c9_constructor_requires_sdk_or_options.1 (fun _ => 0)).2.2 none (some 1)
    (Or.inr rfl) "MetaMaskConnector invalid sdk parameters"
/-- C10: both constructors pass `shimDisconnect: true` to the base
connector unconditionally — the connector's own construction options
(`sdk`/`sdkOptions`, plus `debug` in part_000) carry no way to disable it —
and every successful `connect()` run with the storage collaborator present
records the write of the boolean `true` under the shim-disconnect key. -/
theorem c10_shim_disconnect_forced_and_persisted :
    (∀ (newSDK : Option Nat → Nat) (sdk? : Option Nat) (opts? : Option Nat)
      (tr : List CtorEvent) (st : CtorState),
      Part000.constructor newSDK sdk? opts? = (tr, Except.ok st) →
      st.shimDisconnect = true ∧ st.name = "MetaMask") ∧
    (∀ (newSDK : Option Nat → Nat) (sdk? : Option Nat) (opts? : Option Nat)
      (tr : List CtorEvent) (st : CtorState),
      MetaMaskTS.constructor newSDK sdk? opts? = (tr, Except.ok st) →
      st.shimDisconnect = true ∧ st.name = "MetaMask") ∧
    (∀ (env : Part000.Env) (c : Option Int) (tr : List CEvent)
      (r : ConnectResult), Part000.connect env c = (tr, Except.ok r) →
      env.shimDisconnect = true → env.storagePresent = true →
      CEvent.persisted env.shimKey true ∈ tr) ∧
    (∀ (env : MetaMaskTS.Env) (c : Option Int) (tr : List CEvent)
      (r : ConnectResult), MetaMaskTS.connect env c = (tr, Except.ok r) →
      env.shimDisconnect = true → env.storagePresent = true →
      CEvent.persisted env.shimKey true ∈ tr) := by
  refine ⟨?_, ?_, ?_, ?_⟩
  · intro newSDK sdk? opts? tr st h
    unfold Part000.constructor at h
    split at h
    · simp at h
    · split at h <;>
        · have hst := (Prod.mk.injEq .. ▸ h).2
          obtain rfl := Except.ok.inj hst
          exact ⟨rfl, rfl⟩
  · intro newSDK sdk? opts? tr st h
    unfold MetaMaskTS.constructor at h
    split at h
    · simp at h
    · split at h <;>
        · have hst := (Prod.mk.injEq .. ▸ h).2
          obtain rfl := Except.ok.inj hst
          exact ⟨rfl, rfl⟩
  · intro env c tr r h hshim hstore
    obtain ⟨accounts, pci, strs, chain, hacc, hpci, hsw, hr, htr⟩ :=
      Part000.connectBody_ok_shape env c tr r
        ((Part000.connect_ok_iff env c tr r).mp h)
    subst htr
    simp [hshim, hstore]
  · intro env c tr r h hshim hstore
    obtain ⟨accounts, pci, strs, chain, hacc, hpci, hsw, hr, htr⟩ :=
      MetaMaskTS.connectBody_ok_shape_ts env c tr r
        ((MetaMaskTS.connect_ok_iff_ts env c tr r).mp h)
    subst htr
    simp [hshim, hstore]

/-- Witness for C10: the options-built connector has the forced flag, and
the benign part_000 run records the storage write. -/
theorem c10_shim_disconnect_forced_and_persisted_witness :
    (({ sdk := 0, sdkWasConstructed := true, name := "MetaMask",
        shimDisconnect := true } : CtorState).shimDisconnect = true ∧
      ({ sdk := 0, sdkWasConstructed := true, name := "MetaMask",
         shimDisconnect := true } : CtorState).name = "MetaMask") ∧
    CEvent.persisted "metaMaskSDK.shimDisconnect" true ∈
      (Part000.connect benignEnvA none).1 :=
  ⟨c10_shim_disconnect_forced_and_persisted.1 (fun _ => 0) none (some 1)
      [CtorEvent.sdkConstructed]
      { sdk := 0, sdkWasConstructed := true, name := "MetaMask",
        shimDisconnect := true } (by decide),
   c10_shim_disconnect_forced_and_persisted.2.2.1 benignEnvA none
      [CEvent.sdkConnectTriggered, CEvent.authWaitDone,
       CEvent.resyncListeners, CEvent.accountsDiscovered,
       CEvent.chainDiscovered,
       CEvent.persisted "metaMaskSDK.shimDisconnect" true, CEvent.returned]
      { isConnected := true, account := "0xabc",
        chain := { id := some 1, unsupported := false }, provider := some 0 }
      (by decide) rfl rfl⟩
